import Mathlib

/-!
Shallow embedding of the market-making engine in
`src/backend/strategies/market_maker.py` (class `MarketMaker`) together with
the position query of `src/engine/core/polymarket.py`.

Modelling conventions:
* Python floats are modelled as `ℚ` with exact arithmetic; Python's one-argument
  `round` (round half to even, returning `int`) is modelled by `pyRound`.
* A method call is a function `MarketMakerConfig → Env → MMState →
  Except PyErr α × MMState × List Effect`: the `Env` packs the responses of the
  external collaborators (exchange client, data API, ML pipeline) for one call
  site, the returned state reflects the mutations of `self` performed before a
  normal return or before an exception escaped, and the trace lists the
  externally visible actions (cancel requests, order submissions, midpoint
  reads, sleeps, logged errors) in program order.
* Python exceptions are the `Except` layer: `PyErr.attrError` is the
  `AttributeError` raised when an undefined attribute such as
  `calculate_spread_width` is looked up, `PyErr.netError` stands for the
  exceptions escaping the network-facing client calls, and `PyErr.typeError`
  for arithmetic on `None`.
-/

namespace PolyQH

/-- Exceptions distinguished by the embedding. -/
inductive PyErr
  | attrError
  | typeError
  | netError

/-- Order side, `BUY`/`SELL` of `py_clob_client.order_builder.constants`. -/
inductive Side
  | buy
  | sell

/-- Externally visible actions of the engine, in program order.
`cancelAll` is a `client.cancel_market_orders` request, `placeOrder` a
`create_order`/`post_order` submission, `readMidpoint` a
`client.get_midpoint` request, `sleepFor` an `asyncio.sleep`, and
`logError` the `print` in the `except` clause of `MarketMaker.run`. -/
inductive Effect
  | cancelAll
  | placeOrder (side : Side) (price size : ℚ)
  | readMidpoint
  | sleepFor (secs : ℚ)
  | logError (e : PyErr)

/-- True exactly on order submissions. -/
def Effect.isPlace : Effect → Bool
  | .placeOrder _ _ _ => true
  | _ => false

/-- True exactly on cancel requests. -/
def Effect.isCancel : Effect → Bool
  | .cancelAll => true
  | _ => false

/-- True exactly on midpoint reads. -/
def Effect.isReadMid : Effect → Bool
  | .readMidpoint => true
  | _ => false

/-- `MarketMakerConfig` of `market_maker.py`, lines 26-35 (the identity fields
`market_id`, `market_address`, `token_id` do not influence the control flow
modelled here and are omitted; defaults as in the source). -/
structure MarketMakerConfig where
  update_interval : ℚ
  target_position : ℚ := 0
  max_position : ℚ := 100
  position_skew_threshold : ℚ := 3/10
  base_spread_width : ℚ := 1/20

/-- Responses of the external collaborators for the call sites reached during
one engine call. `getPosition` is the data-API call in
`engine/core/polymarket.py:get_position` (its `response.json()[0]["value"]`
lookup raises on malformed responses, hence `Except`), `getOrders` is
`client.get_orders`, `getMidpoint` is `client.get_midpoint`, `modelPredict`
collapses the market fetch / feature extraction / `model.predict` pipeline of
`predict_spread_width` (any of whose steps may raise, including the explicit
`ValueError` on empty orderbook features), `cancelOrders` is
`client.cancel_market_orders`, and `postOrder` is
`client.create_order` + `client.post_order`, returning the `orderID`. -/
structure Env where
  getPosition : Except PyErr ℚ
  getOrders : Except PyErr (List Nat)
  getMidpoint : Except PyErr ℚ
  modelPredict : Except PyErr ℚ
  cancelOrders : Except PyErr Unit
  postOrder : ℚ → ℚ → Side → Except PyErr Nat

/-- Mutable attributes of a `MarketMaker` instance (`__init__`, lines 39-56).
`hasModel` records whether the joblib model file was found at construction. -/
structure MMState where
  position : Option ℚ
  buy_order_id : Option Nat
  sell_order_id : Option Nat
  active_orders : List Nat
  last_spread_width : Option ℚ
  last_buy_size : Option ℚ
  last_sell_size : Option ℚ
  hasModel : Bool

/-- Method-call monad: configuration and environment readers, `MMState`
state, `PyErr` exceptions, `Effect` trace. -/
abbrev MM (α : Type) := MarketMakerConfig → Env → MMState →
  Except PyErr α × MMState × List Effect

/-- Return a value, leaving state and trace untouched. -/
def MM.pure (x : α) : MM α := fun _ _ s => (.ok x, s, [])

/-- Sequence two computations; an exception in the first short-circuits the
second, keeping the state mutations and trace produced so far. -/
def MM.bind (x : MM α) (f : α → MM β) : MM β := fun c e s =>
  match (x c e s).1 with
  | .ok a =>
    ((f a c e (x c e s).2.1).1, (f a c e (x c e s).2.1).2.1,
      (x c e s).2.2 ++ (f a c e (x c e s).2.1).2.2)
  | .error err => (.error err, (x c e s).2.1, (x c e s).2.2)

instance MonadMM : Monad MM where
  pure := MM.pure
  bind := MM.bind

/-- Monadic bind on `MM` is `MM.bind`. -/
theorem MM.bind_eq (x : MM α) (f : α → MM β) : x >>= f = MM.bind x f := rfl

/-- Monadic pure on `MM` is `MM.pure`. -/
theorem MM.pure_eq (x : α) : (Pure.pure x : MM α) = MM.pure x := rfl

/-- Read the instance state (`self`). -/
def getS : MM MMState := fun _ _ s => (.ok s, s, [])

/-- Mutate the instance state (assignment to a `self` attribute). -/
def modifyS (f : MMState → MMState) : MM Unit := fun _ _ s => (.ok (), f s, [])

/-- Read the environment. -/
def askEnv : MM Env := fun _ e s => (.ok e, s, [])

/-- Read `self.config`. -/
def askCfg : MM MarketMakerConfig := fun c _ s => (.ok c, s, [])

/-- Record an externally visible action. -/
def emit (eff : Effect) : MM Unit := fun _ _ s => (.ok (), s, [eff])

/-- Raise a Python exception. -/
def raise (err : PyErr) : MM α := fun _ _ s => (.error err, s, [])

/-- Propagate the outcome of an external call. -/
def liftE (x : Except PyErr α) : MM α := fun _ _ s => (x, s, [])

/-- Python `try`/`except Exception`: run `x`; if it raises, keep its state
mutations and trace and run the handler. -/
def attempt (x : MM α) (handler : PyErr → MM α) : MM α := fun c e s =>
  match (x c e s).1 with
  | .ok a => (.ok a, (x c e s).2.1, (x c e s).2.2)
  | .error err =>
    ((handler err c e (x c e s).2.1).1, (handler err c e (x c e s).2.1).2.1,
      (x c e s).2.2 ++ (handler err c e (x c e s).2.1).2.2)

/-- Python's one-argument `round`: nearest integer, ties to even. -/
def pyRound (q : ℚ) : ℤ :=
  if q - ⌊q⌋ < 1/2 then ⌊q⌋
  else if 1/2 < q - ⌊q⌋ then ⌊q⌋ + 1
  else if ⌊q⌋ % 2 = 0 then ⌊q⌋ else ⌊q⌋ + 1

/-- `MarketMaker.get_position_skew`, lines 65-70: returns `0.0` when
`self.position is None`, otherwise queries the live position from the data
API and returns `current_pos - target_position`. -/
def get_position_skew : MM ℚ := do
  let s ← getS
  match s.position with
  | none => MM.pure 0
  | some _ => do
    let env ← askEnv
    let current_pos ← liftE env.getPosition
    let cfg ← askCfg
    MM.pure (current_pos - cfg.target_position)

/-- `MarketMaker.needs_rebalancing`, lines 72-76:
`abs(skew) > max_position * position_skew_threshold`. -/
def needs_rebalancing : MM Bool := do
  let skew ← get_position_skew
  let cfg ← askCfg
  MM.pure (decide (cfg.max_position * cfg.position_skew_threshold < |skew|))

/-- `self.calculate_spread_width`: this method is not defined anywhere in the
`MarketMaker` class or its module (only `predict_spread_width` is), so in
Python the attribute lookup at each call site raises `AttributeError`. -/
def calculate_spread_width : MM ℚ := raise .attrError

/-- `MarketMaker.calculate_order_sizes`, lines 133-149: `base_size = 5.0`,
`skew_ratio = skew / max_position`, multipliers clamped at `0.2`, result
`(max(5, round(buy_size)), max(5, round(sell_size)))` (Python ints). -/
def calculate_order_sizes : MM (ℚ × ℚ) := do
  let base_size : ℚ := 5
  let skew ← get_position_skew
  let cfg ← askCfg
  let skew_ratio := skew / cfg.max_position
  let buy_size_multiplier := max (1/5) (1 - skew_ratio)
  let sell_size_multiplier := max (1/5) (1 + skew_ratio)
  MM.pure (((max 5 (pyRound (base_size * buy_size_multiplier)) : ℤ) : ℚ),
    ((max 5 (pyRound (base_size * sell_size_multiplier)) : ℤ) : ℚ))

/-- `MarketMaker.spread_changed`, lines 78-91: first calls
`self.calculate_spread_width()` (which raises `AttributeError`, see
`calculate_spread_width`) and `self.calculate_order_sizes()`; were a width
available, it would return `True` on a `None` snapshot and otherwise compare
against the last-applied snapshot with tolerances `0.0001` (width) and
`0.01` (sizes). Arithmetic on a `None` last size is Python's `TypeError`. -/
def spread_changed : MM Bool := do
  let spread_width ← calculate_spread_width
  let sizes ← calculate_order_sizes
  let s ← getS
  match s.last_spread_width with
  | none => MM.pure true
  | some last_w =>
    match s.last_buy_size, s.last_sell_size with
    | some last_b, some last_s =>
      MM.pure (decide (1/10000 < |spread_width - last_w|) ||
        decide (1/100 < |sizes.1 - last_b|) ||
        decide (1/100 < |sizes.2 - last_s|))
    | _, _ => raise .typeError

/-- `MarketMaker.predict_spread_width`, lines 93-131: base spread when the
model is absent; otherwise the fetch/featurize/predict pipeline runs inside
`try`, the prediction is clamped by `max(0.001, min(0.20, prediction))`, and
any exception falls back to `base_spread_width`. -/
def predict_spread_width : MM ℚ := do
  let s ← getS
  match s.hasModel with
  | false => do
    let cfg ← askCfg
    MM.pure cfg.base_spread_width
  | true =>
    attempt
      (do
        let env ← askEnv
        let prediction ← liftE env.modelPredict
        MM.pure (max (1/1000) (min (1/5) prediction)))
      (fun _err => do
        let cfg ← askCfg
        MM.pure cfg.base_spread_width)

/-- `MarketMaker.cancel_all_orders`, lines 151-159: best-effort cancel; on
success the tracked order ids and active order list are cleared, on failure
the error is printed and swallowed, leaving the ids in place. -/
def cancel_all_orders : MM Unit :=
  attempt
    (do
      emit .cancelAll
      let env ← askEnv
      let _u ← liftE env.cancelOrders
      modifyS fun s =>
        { s with buy_order_id := none, sell_order_id := none, active_orders := [] })
    (fun _err => MM.pure ())

/-- `MarketMaker.get_midpoint`, lines 253-255. -/
def get_midpoint : MM ℚ := do
  emit .readMidpoint
  let env ← askEnv
  liftE env.getMidpoint

/-- `MarketMaker.place_order`, lines 263-267: builds, signs and posts a GTC
order; the submission is recorded in the trace, the exchange response (or its
failure) is the returned value. -/
def place_order (price size : ℚ) (side : Side) : MM Nat := do
  emit (.placeOrder side price size)
  let env ← askEnv
  liftE (env.postOrder price size side)

/-- `MarketMaker.rebalance_position`, lines 161-183: no order when
`abs(skew) < 1`; otherwise one aggressive order of size `min(abs(skew), 10)`,
a sell at `midpoint - 0.01` when long (`skew > 0`), a buy at
`midpoint + 0.01` otherwise. -/
def rebalance_position : MM Unit := do
  let skew ← get_position_skew
  if |skew| < 1 then MM.pure ()
  else do
    let midpoint ← get_midpoint
    if 0 < skew then do
      let _oid ← place_order (midpoint - 1/100) (min |skew| 10) .sell
      MM.pure ()
    else do
      let _oid ← place_order (midpoint + 1/100) (min |skew| 10) .buy
      MM.pure ()

/-- `MarketMaker.update_state`, lines 237-242: assigns `self.position` from
the data API, then `self.active_orders` from the exchange, in that order. -/
def update_state : MM Unit := do
  let env ← askEnv
  let pos ← liftE env.getPosition
  modifyS fun s => { s with position := some pos }
  let orders ← liftE env.getOrders
  modifyS fun s => { s with active_orders := orders }

/-- `MarketMaker.place_market_making_orders`, lines 207-235: reads the
midpoint, then calls the undefined `self.calculate_spread_width()` (so the
body below the midpoint read is unreachable in the source); placing and the
snapshot update sit in a `try` whose handler only prints. -/
def place_market_making_orders : MM Unit := do
  let midpoint ← get_midpoint
  let spread_width ← calculate_spread_width
  let sizes ← calculate_order_sizes
  let buy_price := midpoint - spread_width
  let sell_price := midpoint + spread_width
  attempt
    (do
      let buy_oid ← place_order buy_price sizes.1 .buy
      let sell_oid ← place_order sell_price sizes.2 .sell
      modifyS fun s =>
        { s with
          buy_order_id := some buy_oid
          sell_order_id := some sell_oid
          last_spread_width := some spread_width
          last_buy_size := some sizes.1
          last_sell_size := some sizes.2 })
    (fun _err => MM.pure ())

/-- `MarketMaker.update`, lines 185-205: refresh state; if rebalancing is
needed, cancel everything, rebalance, sleep 5 seconds, refresh again and
clear the last spread width; then cancel-and-replace quotes only if
`spread_changed()` — which in the source raises `AttributeError`. -/
def update : MM Unit := do
  update_state
  let nb ← needs_rebalancing
  if nb then do
    cancel_all_orders
    rebalance_position
    emit (.sleepFor 5)
    update_state
    modifyS fun s => { s with last_spread_width := none }
  else MM.pure ()
  let sc ← spread_changed
  if sc then do
    cancel_all_orders
    place_market_making_orders
  else MM.pure ()

/-- One iteration of `MarketMaker.run`, lines 244-251: `update()` inside
`try`, any exception printed and swallowed, then the interval sleep. -/
def runStep (cfg : MarketMakerConfig) (env : Env) (s : MMState) :
    MMState × List Effect :=
  match update cfg env s with
  | (.ok _, s1, tr) => (s1, tr ++ [.sleepFor cfg.update_interval])
  | (.error err, s1, tr) =>
    (s1, tr ++ [.logError err, .sleepFor cfg.update_interval])

/-- `n` iterations of the `while True` loop of `MarketMaker.run`, with a
per-iteration environment stream. -/
def runN (cfg : MarketMakerConfig) (envs : Nat → Env) :
    Nat → MMState → MMState × List Effect
  | 0, s => (s, [])
  | n+1, s =>
    let p := runStep cfg (envs 0) s
    let q := runN cfg (fun i => envs (i+1)) n p.1
    (q.1, p.2 ++ q.2)

/-- Concrete configuration: the source defaults (`target_position = 0`,
`max_position = 100`, `position_skew_threshold = 0.3`,
`base_spread_width = 0.05`) with a 60-second interval. -/
def cfg0 : MarketMakerConfig := { update_interval := 60 }

/-- Concrete well-behaved environment: flat position `0`, no open orders,
midpoint `0.5`, model prediction `0.005`, cancels and submissions succeed. -/
def env0 : Env :=
  { getPosition := .ok 0
    getOrders := .ok []
    getMidpoint := .ok (1/2)
    modelPredict := .ok (1/200)
    cancelOrders := .ok ()
    postOrder := fun _ _ _ => .ok 1 }

/-- Concrete quiescent state: flat cached position, a resting quote pair,
and a last-applied snapshot identical to what the quiet market would produce
again (width `0.05`, sizes `5`/`5`). -/
def sQuiet : MMState :=
  { position := some 0
    buy_order_id := some 11
    sell_order_id := some 12
    active_orders := []
    last_spread_width := some (1/20)
    last_buy_size := some 5
    last_sell_size := some 5
    hasModel := false }

/-- Concrete freshly-constructed state: nothing cached yet. -/
def sFresh : MMState :=
  { position := none
    buy_order_id := none
    sell_order_id := none
    active_orders := []
    last_spread_width := none
    last_buy_size := none
    last_sell_size := none
    hasModel := false }

/-- Concrete state whose joblib model was found at construction. -/
def sModel : MMState :=
  { position := some 0
    buy_order_id := none
    sell_order_id := none
    active_orders := []
    last_spread_width := none
    last_buy_size := none
    last_sell_size := none
    hasModel := true }

/-- Concrete state holding a cached position and one tracked active order. -/
def sHeld : MMState :=
  { position := some 1
    buy_order_id := some 11
    sell_order_id := none
    active_orders := [7]
    last_spread_width := some (1/20)
    last_buy_size := some 5
    last_sell_size := some 5
    hasModel := false }

/-- Environment whose data-API position query fails. -/
def envPosFail : Env := { env0 with getPosition := .error .netError }

/-- Environment whose open-order query fails while the position query
returns `2`. -/
def envOrdersFail : Env :=
  { env0 with getPosition := .ok 2, getOrders := .error .netError }

/-- Environment whose model-prediction pipeline fails. -/
def envPredFail : Env := { env0 with modelPredict := .error .netError }

/-- Environment predicting a large width `3`, to exercise the upper clamp. -/
def envPredBig : Env := { env0 with modelPredict := .ok 3 }

/-- Environment reporting a long position of `40` units. -/
def envLong : Env := { env0 with getPosition := .ok 40 }

/-- Environment reporting a short position of `-40` units. -/
def envShort : Env := { env0 with getPosition := .ok (-40) }

/-- Environment identical to `env0` except that the midpoint has moved. -/
def envMoved : Env := { env0 with getMidpoint := .ok (3/5) }

/-- Evaluation of `update` in any state whose live skew does not trigger
rebalancing, under an environment whose state queries succeed: the call dies
with `AttributeError` at the `spread_changed()` check, after refreshing the
state and before emitting any external action. -/
theorem update_eval_no_rebalance (cfg : MarketMakerConfig) (env : Env)
    (p : ℚ) (os : List Nat)
    (hp : env.getPosition = .ok p) (ho : env.getOrders = .ok os)
    (hskew : ¬ cfg.max_position * cfg.position_skew_threshold <
      |p - cfg.target_position|)
    (s : MMState) :
    update cfg env s =
      (.error .attrError, { s with position := some p, active_orders := os },
        []) := by
  norm_num [update, update_state, needs_rebalancing, get_position_skew,
    spread_changed, calculate_spread_width, calculate_order_sizes,
    cancel_all_orders, rebalance_position, get_midpoint, place_order,
    place_market_making_orders, MM.bind_eq, MM.pure_eq, MM.bind, MM.pure,
    getS, modifyS, askEnv, askCfg, emit, raise, liftE, attempt, hp, ho, hskew]

set_option maxHeartbeats 1000000 in
/-- Under every environment and every state, one `update` call submits at
most one order: the market-making pair is never placed (its path dies at the
undefined `calculate_spread_width`), so only the single rebalance order can
ever be submitted. -/
theorem update_places_at_most_one (cfg : MarketMakerConfig) (env : Env)
    (s : MMState) :
    ((update cfg env s).2.2.filter Effect.isPlace).length ≤ 1 := by
  rcases hp : env.getPosition with e | p
  · norm_num [update, update_state, needs_rebalancing, get_position_skew,
    spread_changed, calculate_spread_width, calculate_order_sizes,
    cancel_all_orders, rebalance_position, get_midpoint, place_order,
    place_market_making_orders, MM.bind_eq, MM.pure_eq, MM.bind, MM.pure,
    getS, modifyS, askEnv, askCfg, emit, raise, liftE, attempt,
    Effect.isPlace, hp]
  · rcases ho : env.getOrders with e | os
    · norm_num [update, update_state, needs_rebalancing, get_position_skew,
      spread_changed, calculate_spread_width, calculate_order_sizes,
      cancel_all_orders, rebalance_position, get_midpoint, place_order,
      place_market_making_orders, MM.bind_eq, MM.pure_eq, MM.bind, MM.pure,
      getS, modifyS, askEnv, askCfg, emit, raise, liftE, attempt,
      Effect.isPlace, hp, ho]
    · by_cases hreb : cfg.max_position * cfg.position_skew_threshold <
        |p - cfg.target_position|
      · rcases hc : env.cancelOrders with ce | cu
        · by_cases hsmall : |p - cfg.target_position| < 1
          · norm_num [update, update_state, needs_rebalancing, get_position_skew,
            spread_changed, calculate_spread_width, calculate_order_sizes,
            cancel_all_orders, rebalance_position, get_midpoint, place_order,
            place_market_making_orders, MM.bind_eq, MM.pure_eq, MM.bind, MM.pure,
            getS, modifyS, askEnv, askCfg, emit, raise, liftE, attempt,
            Effect.isPlace, hp, ho, hreb, hc, hsmall]
          · rcases hm : env.getMidpoint with me | m
            · norm_num [update, update_state, needs_rebalancing, get_position_skew,
              spread_changed, calculate_spread_width, calculate_order_sizes,
              cancel_all_orders, rebalance_position, get_midpoint, place_order,
              place_market_making_orders, MM.bind_eq, MM.pure_eq, MM.bind, MM.pure,
              getS, modifyS, askEnv, askCfg, emit, raise, liftE, attempt,
              Effect.isPlace, hp, ho, hreb, hc, hsmall, hm]
            · by_cases hpos : 0 < p - cfg.target_position
              · rcases hpo : env.postOrder (m - 1/100)
                  (min |p - cfg.target_position| 10) .sell with pe | poid
                · norm_num [update, update_state, needs_rebalancing, get_position_skew,
                  spread_changed, calculate_spread_width, calculate_order_sizes,
                  cancel_all_orders, rebalance_position, get_midpoint, place_order,
                  place_market_making_orders, MM.bind_eq, MM.pure_eq, MM.bind, MM.pure,
                  getS, modifyS, askEnv, askCfg, emit, raise, liftE, attempt,
                  Effect.isPlace, hp, ho, hreb, hc, hsmall, hm, hpos, hpo]
                · norm_num [update, update_state, needs_rebalancing, get_position_skew,
                  spread_changed, calculate_spread_width, calculate_order_sizes,
                  cancel_all_orders, rebalance_position, get_midpoint, place_order,
                  place_market_making_orders, MM.bind_eq, MM.pure_eq, MM.bind, MM.pure,
                  getS, modifyS, askEnv, askCfg, emit, raise, liftE, attempt,
                  Effect.isPlace, hp, ho, hreb, hc, hsmall, hm, hpos, hpo]
              · rcases hpo : env.postOrder (m + 1/100)
                  (min |p - cfg.target_position| 10) .buy with pe | poid
                · norm_num [update, update_state, needs_rebalancing, get_position_skew,
                  spread_changed, calculate_spread_width, calculate_order_sizes,
                  cancel_all_orders, rebalance_position, get_midpoint, place_order,
                  place_market_making_orders, MM.bind_eq, MM.pure_eq, MM.bind, MM.pure,
                  getS, modifyS, askEnv, askCfg, emit, raise, liftE, attempt,
                  Effect.isPlace, hp, ho, hreb, hc, hsmall, hm, hpos, hpo]
                · norm_num [update, update_state, needs_rebalancing, get_position_skew,
                  spread_changed, calculate_spread_width, calculate_order_sizes,
                  cancel_all_orders, rebalance_position, get_midpoint, place_order,
                  place_market_making_orders, MM.bind_eq, MM.pure_eq, MM.bind, MM.pure,
                  getS, modifyS, askEnv, askCfg, emit, raise, liftE, attempt,
                  Effect.isPlace, hp, ho, hreb, hc, hsmall, hm, hpos, hpo]
        · by_cases hsmall : |p - cfg.target_position| < 1
          · norm_num [update, update_state, needs_rebalancing, get_position_skew,
            spread_changed, calculate_spread_width, calculate_order_sizes,
            cancel_all_orders, rebalance_position, get_midpoint, place_order,
            place_market_making_orders, MM.bind_eq, MM.pure_eq, MM.bind, MM.pure,
            getS, modifyS, askEnv, askCfg, emit, raise, liftE, attempt,
            Effect.isPlace, hp, ho, hreb, hc, hsmall]
          · rcases hm : env.getMidpoint with me | m
            · norm_num [update, update_state, needs_rebalancing, get_position_skew,
              spread_changed, calculate_spread_width, calculate_order_sizes,
              cancel_all_orders, rebalance_position, get_midpoint, place_order,
              place_market_making_orders, MM.bind_eq, MM.pure_eq, MM.bind, MM.pure,
              getS, modifyS, askEnv, askCfg, emit, raise, liftE, attempt,
              Effect.isPlace, hp, ho, hreb, hc, hsmall, hm]
            · by_cases hpos : 0 < p - cfg.target_position
              · rcases hpo : env.postOrder (m - 1/100)
                  (min |p - cfg.target_position| 10) .sell with pe | poid
                · norm_num [update, update_state, needs_rebalancing, get_position_skew,
                  spread_changed, calculate_spread_width, calculate_order_sizes,
                  cancel_all_orders, rebalance_position, get_midpoint, place_order,
                  place_market_making_orders, MM.bind_eq, MM.pure_eq, MM.bind, MM.pure,
                  getS, modifyS, askEnv, askCfg, emit, raise, liftE, attempt,
                  Effect.isPlace, hp, ho, hreb, hc, hsmall, hm, hpos, hpo]
                · norm_num [update, update_state, needs_rebalancing, get_position_skew,
                  spread_changed, calculate_spread_width, calculate_order_sizes,
                  cancel_all_orders, rebalance_position, get_midpoint, place_order,
                  place_market_making_orders, MM.bind_eq, MM.pure_eq, MM.bind, MM.pure,
                  getS, modifyS, askEnv, askCfg, emit, raise, liftE, attempt,
                  Effect.isPlace, hp, ho, hreb, hc, hsmall, hm, hpos, hpo]
              · rcases hpo : env.postOrder (m + 1/100)
                  (min |p - cfg.target_position| 10) .buy with pe | poid
                · norm_num [update, update_state, needs_rebalancing, get_position_skew,
                  spread_changed, calculate_spread_width, calculate_order_sizes,
                  cancel_all_orders, rebalance_position, get_midpoint, place_order,
                  place_market_making_orders, MM.bind_eq, MM.pure_eq, MM.bind, MM.pure,
                  getS, modifyS, askEnv, askCfg, emit, raise, liftE, attempt,
                  Effect.isPlace, hp, ho, hreb, hc, hsmall, hm, hpos, hpo]
                · norm_num [update, update_state, needs_rebalancing, get_position_skew,
                  spread_changed, calculate_spread_width, calculate_order_sizes,
                  cancel_all_orders, rebalance_position, get_midpoint, place_order,
                  place_market_making_orders, MM.bind_eq, MM.pure_eq, MM.bind, MM.pure,
                  getS, modifyS, askEnv, askCfg, emit, raise, liftE, attempt,
                  Effect.isPlace, hp, ho, hreb, hc, hsmall, hm, hpos, hpo]
      · have h := update_eval_no_rebalance cfg env p os hp ho hreb s
        simp [h]

/-- C1: `calculate_spread_width` is not defined in the `MarketMaker` class or
its module, so in every engine state whose live skew does not trigger
rebalancing, `update()` raises `AttributeError` at the `spread_changed()`
check — after the state refresh and before any quote is computed (the trace
is empty: no cancel, no midpoint read, no submission) — and the per-iteration
handler of `run()` swallows the exception, logs it, and sleeps to the next
iteration, so no market-making quote is ever placed. -/
theorem C1_update_raises_attribute_error (cfg : MarketMakerConfig) (env : Env)
    (p : ℚ) (os : List Nat)
    (hp : env.getPosition = .ok p) (ho : env.getOrders = .ok os)
    (hskew : ¬ cfg.max_position * cfg.position_skew_threshold <
      |p - cfg.target_position|)
    (s : MMState) :
    update cfg env s =
      (.error .attrError, { s with position := some p, active_orders := os },
        []) ∧
    runStep cfg env s =
      ({ s with position := some p, active_orders := os },
        [.logError .attrError, .sleepFor cfg.update_interval]) ∧
    (∀ (env' : Env) (s' : MMState),
      ((update cfg env' s').2.2.filter Effect.isPlace).length ≤ 1) := by
  have h := update_eval_no_rebalance cfg env p os hp ho hskew s
  exact ⟨h, by simp [runStep, h],
    fun env' s' => update_places_at_most_one cfg env' s'⟩

/-- C1 witness: a freshly constructed engine on a flat, well-behaved market. -/
theorem C1_witness :
    update cfg0 env0 sFresh =
      (.error .attrError,
        { sFresh with position := some 0, active_orders := ([] : List Nat) },
        []) ∧
    runStep cfg0 env0 sFresh =
      ({ sFresh with position := some 0, active_orders := ([] : List Nat) },
        [.logError .attrError, .sleepFor cfg0.update_interval]) ∧
    (∀ (env' : Env) (s' : MMState),
      ((update cfg0 env' s').2.2.filter Effect.isPlace).length ≤ 1) :=
  C1_update_raises_attribute_error cfg0 env0 0 [] rfl rfl
    (by norm_num [cfg0]) sFresh

/-- C2 (code bug): with an identical desired quote set on consecutive ticks,
the claimed change-detection cycle never happens — `spread_changed()` raises
`AttributeError` before any comparison, so two consecutive iterations perform
zero cancel/submit cycles instead of the claimed exactly one. -/
theorem C2_reconcile_never_cycles :
    update cfg0 env0 sQuiet = (.error .attrError, sQuiet, []) ∧
    (runStep cfg0 env0 sQuiet).2.filter
      (fun e => e.isCancel || e.isPlace) = [] ∧
    (runStep cfg0 env0 (runStep cfg0 env0 sQuiet).1).2.filter
      (fun e => e.isCancel || e.isPlace) = [] := by
  have h : update cfg0 env0 sQuiet = (.error .attrError, sQuiet, []) := by
    have h0 := update_eval_no_rebalance cfg0 env0 0 [] rfl rfl
      (by norm_num [cfg0]) sQuiet
    simpa [sQuiet] using h0
  refine ⟨h, ?_, ?_⟩ <;>
    simp [runStep, h, Effect.isCancel, Effect.isPlace]

/-- C3 counterexample: the midpoint moved to `0.6` while widths and sizes
are unchanged from the last-applied snapshot, yet the iteration reads no
midpoint at all and prices nothing — quote prices do not track the current
midpoint. -/
theorem C3_counterexample :
    (update cfg0 envMoved sQuiet).1 = .error .attrError ∧
    (update cfg0 envMoved sQuiet).2.2.filter Effect.isReadMid = [] ∧
    (update cfg0 envMoved sQuiet).2.2.filter Effect.isPlace = [] := by
  have h := update_eval_no_rebalance cfg0 envMoved 0 [] rfl rfl
    (by norm_num [cfg0]) sQuiet
  simp [h]

/-- C3 amended: on every non-rebalancing iteration the engine never re-reads
the market midpoint — `update()` raises `AttributeError` at the
`spread_changed()` check before any midpoint read, so resting quote prices
are never re-priced against the current midpoint. -/
theorem C3_amended_no_midpoint_reread (cfg : MarketMakerConfig) (env : Env)
    (p : ℚ) (os : List Nat)
    (hp : env.getPosition = .ok p) (ho : env.getOrders = .ok os)
    (hskew : ¬ cfg.max_position * cfg.position_skew_threshold <
      |p - cfg.target_position|)
    (s : MMState) :
    (update cfg env s).2.2.filter Effect.isReadMid = [] ∧
    (update cfg env s).1 = .error .attrError := by
  have h := update_eval_no_rebalance cfg env p os hp ho hskew s
  simp [h]

/-- C3 witness: a quiet tick on a state holding a resting order. -/
theorem C3_witness :
    (update cfg0 env0 sHeld).2.2.filter Effect.isReadMid = [] ∧
    (update cfg0 env0 sHeld).1 = .error .attrError :=
  C3_amended_no_midpoint_reread cfg0 env0 0 [] rfl rfl
    (by norm_num [cfg0]) sHeld

/-- C4: under a well-behaved environment, an iteration of `update` submits an
order iff `|skew| > max_position * position_skew_threshold` and `|skew| ≥ 1`;
when it fires it submits exactly one order of size `min(|skew|, 10)`, a sell
at `midpoint - 0.01` when the skew is positive and a buy at
`midpoint + 0.01` when it is negative. -/
theorem C4_rebalancer_fires_iff (cfg : MarketMakerConfig) (env : Env)
    (p : ℚ) (os : List Nat) (m : ℚ) (oid : Nat)
    (hp : env.getPosition = .ok p) (ho : env.getOrders = .ok os)
    (hm : env.getMidpoint = .ok m) (hc : env.cancelOrders = .ok ())
    (hpost : env.postOrder = fun _ _ _ => .ok oid)
    (s : MMState) :
    (update cfg env s).2.2.filter Effect.isPlace =
      if cfg.max_position * cfg.position_skew_threshold <
           |p - cfg.target_position| ∧ 1 ≤ |p - cfg.target_position| then
        if 0 < p - cfg.target_position then
          [.placeOrder .sell (m - 1/100) (min |p - cfg.target_position| 10)]
        else
          [.placeOrder .buy (m + 1/100) (min |p - cfg.target_position| 10)]
      else [] := by
  by_cases hreb : cfg.max_position * cfg.position_skew_threshold <
    |p - cfg.target_position|
  · by_cases hsmall : |p - cfg.target_position| < 1
    · have h1 : ¬ 1 ≤ |p - cfg.target_position| := not_le.mpr hsmall
      norm_num [update, update_state, needs_rebalancing, get_position_skew,
        spread_changed, calculate_spread_width, calculate_order_sizes,
        cancel_all_orders, rebalance_position, get_midpoint, place_order,
        place_market_making_orders, MM.bind_eq, MM.pure_eq, MM.bind, MM.pure,
        getS, modifyS, askEnv, askCfg, emit, raise, liftE, attempt,
        hp, ho, hm, hc, hpost, hreb, hsmall, h1, Effect.isPlace]
    · have h1 : 1 ≤ |p - cfg.target_position| := not_lt.mp hsmall
      by_cases hpos : 0 < p - cfg.target_position
      · norm_num [update, update_state, needs_rebalancing, get_position_skew,
          spread_changed, calculate_spread_width, calculate_order_sizes,
          cancel_all_orders, rebalance_position, get_midpoint, place_order,
          place_market_making_orders, MM.bind_eq, MM.pure_eq, MM.bind, MM.pure,
          getS, modifyS, askEnv, askCfg, emit, raise, liftE, attempt,
          hp, ho, hm, hc, hpost, hreb, hsmall, h1, hpos, Effect.isPlace]
      · norm_num [update, update_state, needs_rebalancing, get_position_skew,
          spread_changed, calculate_spread_width, calculate_order_sizes,
          cancel_all_orders, rebalance_position, get_midpoint, place_order,
          place_market_making_orders, MM.bind_eq, MM.pure_eq, MM.bind, MM.pure,
          getS, modifyS, askEnv, askCfg, emit, raise, liftE, attempt,
          hp, ho, hm, hc, hpost, hreb, hsmall, h1, hpos, Effect.isPlace]
  · have h := update_eval_no_rebalance cfg env p os hp ho hreb s
    simp [h, hreb]

/-- C4 witness: a long position of 40 units against a threshold of 30 fires
one capped sell 0.01 below the 0.5 midpoint. -/
theorem C4_witness :
    (update cfg0 envLong sQuiet).2.2.filter Effect.isPlace =
      [.placeOrder .sell (49/100) 10] := by
  have h := C4_rebalancer_fires_iff cfg0 envLong 40 [] (1/2) 1 rfl rfl rfl rfl
    rfl sQuiet
  norm_num [cfg0] at h ⊢
  exact h

/-- Python `round` of an integer is that integer. -/
theorem pyRound_intCast (n : ℤ) : pyRound (n : ℚ) = n := by
  norm_num [pyRound]

/-- C5: with live position `p`, the quote calculator returns
`buy = max(5, round(5 * max(0.2, 1 - r)))` and
`sell = max(5, round(5 * max(0.2, 1 + r)))` for
`r = (p - target_position) / max_position`, both sizes are at least the
minimum size `5`, and at zero skew both equal the base size `5`. -/
theorem C5_order_sizes_formula (cfg : MarketMakerConfig) (env : Env)
    (s : MMState) (p q : ℚ)
    (hp : env.getPosition = .ok p) (hcache : s.position = some q) :
    calculate_order_sizes cfg env s =
      (.ok
        (((max 5 (pyRound (5 * max (1/5)
            (1 - (p - cfg.target_position) / cfg.max_position))) : ℤ) : ℚ),
         ((max 5 (pyRound (5 * max (1/5)
            (1 + (p - cfg.target_position) / cfg.max_position))) : ℤ) : ℚ)),
        s, []) ∧
    (∀ b c : ℚ, (calculate_order_sizes cfg env s).1 = .ok (b, c) →
      5 ≤ b ∧ 5 ≤ c) ∧
    (p - cfg.target_position = 0 →
      (calculate_order_sizes cfg env s).1 = .ok (5, 5)) := by
  have heval : calculate_order_sizes cfg env s =
      (.ok
        (((max 5 (pyRound (5 * max (1/5)
            (1 - (p - cfg.target_position) / cfg.max_position))) : ℤ) : ℚ),
         ((max 5 (pyRound (5 * max (1/5)
            (1 + (p - cfg.target_position) / cfg.max_position))) : ℤ) : ℚ)),
        s, []) := by
    norm_num [calculate_order_sizes, get_position_skew, MM.bind_eq, MM.pure_eq,
      MM.bind, MM.pure, getS, askEnv, askCfg, liftE, hp, hcache]
  refine ⟨heval, ?_, ?_⟩
  · intro b c hbc
    rw [heval] at hbc
    simp only [Except.ok.injEq, Prod.mk.injEq] at hbc
    rw [← hbc.1, ← hbc.2]
    constructor <;> exact_mod_cast le_max_left 5 _
  · intro h0
    have h5 : pyRound (5 : ℚ) = 5 := by norm_num [pyRound]
    rw [heval, h0]
    norm_num [h5]

/-- C5 witness: scenario 1 of the spec — flat position, default
configuration, sizes `5/5` and both bounds. -/
theorem C5_witness :
    calculate_order_sizes cfg0 env0 sQuiet =
      (.ok
        (((max 5 (pyRound (5 * max (1/5)
            (1 - ((0 : ℚ) - cfg0.target_position) / cfg0.max_position))) : ℤ) : ℚ),
         ((max 5 (pyRound (5 * max (1/5)
            (1 + ((0 : ℚ) - cfg0.target_position) / cfg0.max_position))) : ℤ) : ℚ)),
        sQuiet, []) ∧
    (∀ b c : ℚ, (calculate_order_sizes cfg0 env0 sQuiet).1 = .ok (b, c) →
      5 ≤ b ∧ 5 ≤ c) ∧
    ((0 : ℚ) - cfg0.target_position = 0 →
      (calculate_order_sizes cfg0 env0 sQuiet).1 = .ok (5, 5)) :=
  C5_order_sizes_formula cfg0 env0 sQuiet 0 0 rfl rfl

/-- C6 counterexample: with the model present and predicting `0.005`, the
engine's spread width provider returns `0.005`, strictly below the claimed
floor of `0.01`. -/
theorem C6_counterexample :
    (predict_spread_width cfg0 env0 sModel).1 = .ok (1/200) ∧
    (1/200 : ℚ) < 1/100 := by
  constructor
  · norm_num [predict_spread_width, MM.bind_eq, MM.pure_eq, MM.bind, MM.pure,
      getS, askEnv, askCfg, liftE, attempt, env0, sModel]
  · norm_num

/-- C6 amended: the spread width produced when a model prediction is
available is clamped into `[0.001, 0.20]` — the floor is `0.001`, not
`0.01` — and when no model is loaded the width is exactly
`base_spread_width`, with no floor applied at all. -/
theorem C6_amended_width_floor (cfg : MarketMakerConfig) (env : Env)
    (s : MMState) (p : ℚ) :
    (s.hasModel = true → env.modelPredict = .ok p →
      predict_spread_width cfg env s =
        (.ok (max (1/1000) (min (1/5) p)), s, []) ∧
      (1/1000 : ℚ) ≤ max (1/1000) (min (1/5) p) ∧
      max (1/1000) (min (1/5) p) ≤ 1/5) ∧
    (s.hasModel = false →
      predict_spread_width cfg env s = (.ok cfg.base_spread_width, s, [])) := by
  constructor
  · intro hmod hpred
    refine ⟨?_, le_max_left _ _, max_le (by norm_num) (min_le_left _ _)⟩
    norm_num [predict_spread_width, MM.bind_eq, MM.pure_eq, MM.bind, MM.pure,
      getS, askEnv, askCfg, liftE, attempt, hmod, hpred]
  · intro hmod
    norm_num [predict_spread_width, MM.bind_eq, MM.pure_eq, MM.bind, MM.pure,
      getS, askEnv, askCfg, liftE, attempt, hmod]

/-- C6 witness: a huge prediction of `3` is clamped into the range. -/
theorem C6_witness :
    predict_spread_width cfg0 envPredBig sModel =
      (.ok (max (1/1000) (min (1/5) 3)), sModel, []) ∧
    (1/1000 : ℚ) ≤ max (1/1000) (min (1/5) 3) ∧
    max (1/1000) (min (1/5) (3 : ℚ)) ≤ 1/5 :=
  (C6_amended_width_floor cfg0 envPredBig sModel 3).1 rfl rfl

/-- C7: the predicted spread width is `max(0.001, min(0.20, prediction))`
when the model is present and its pipeline succeeds; when the model is
absent, or any step of the prediction pipeline raises, the engine falls back
to the configured `base_spread_width`. -/
theorem C7_predictor_fallback (cfg : MarketMakerConfig) (env : Env)
    (s : MMState) (p : ℚ) (err : PyErr) :
    (s.hasModel = false →
      predict_spread_width cfg env s = (.ok cfg.base_spread_width, s, [])) ∧
    (s.hasModel = true → env.modelPredict = .ok p →
      predict_spread_width cfg env s =
        (.ok (max (1/1000) (min (1/5) p)), s, [])) ∧
    (s.hasModel = true → env.modelPredict = .error err →
      predict_spread_width cfg env s = (.ok cfg.base_spread_width, s, [])) := by
  refine ⟨fun hmod => ?_, fun hmod hpred => ?_, fun hmod hpred => ?_⟩
  · norm_num [predict_spread_width, MM.bind_eq, MM.pure_eq, MM.bind, MM.pure,
      getS, askEnv, askCfg, liftE, attempt, hmod]
  · norm_num [predict_spread_width, MM.bind_eq, MM.pure_eq, MM.bind, MM.pure,
      getS, askEnv, askCfg, liftE, attempt, hmod, hpred]
  · norm_num [predict_spread_width, MM.bind_eq, MM.pure_eq, MM.bind, MM.pure,
      getS, askEnv, askCfg, liftE, attempt, hmod, hpred]

/-- C7 witness: fallback on a failing pipeline, fallback on an absent model,
and the clamped prediction on success. -/
theorem C7_witness :
    (predict_spread_width cfg0 envPredFail sModel =
      (.ok cfg0.base_spread_width, sModel, [])) ∧
    (predict_spread_width cfg0 env0 sQuiet =
      (.ok cfg0.base_spread_width, sQuiet, [])) ∧
    (predict_spread_width cfg0 env0 sModel =
      (.ok (max (1/1000) (min (1/5) (1/200))), sModel, [])) :=
  ⟨(C7_predictor_fallback cfg0 envPredFail sModel 0 .netError).2.2 rfl rfl,
   (C7_predictor_fallback cfg0 env0 sQuiet 0 .netError).1 rfl,
   (C7_predictor_fallback cfg0 env0 sModel (1/200) .netError).2.1 rfl rfl⟩

/-- C8 counterexample: with a cached position of `1` and one tracked order,
an environment where the position query returns `2` but the order query
fails leaves the state half-refreshed — the position was updated while the
active order set stayed stale — so the refresh is not atomic. -/
theorem C8_counterexample :
    update_state cfg0 envOrdersFail sHeld =
      (.error .netError, { sHeld with position := some 2 }, []) ∧
    ({ sHeld with position := some 2 }).position ≠ sHeld.position ∧
    ({ sHeld with position := some 2 }).active_orders = sHeld.active_orders := by
  refine ⟨?_, by simp [sHeld], rfl⟩
  norm_num [update_state, MM.bind_eq, MM.pure_eq, MM.bind, MM.pure,
    askEnv, modifyS, liftE, envOrdersFail, env0]

/-- C8 amended: `update_state` assigns the position first and the active
order set second; a failing position query leaves both fields untouched, a
failing order query leaves the position freshly updated and the active order
set stale, and only when both queries succeed do both fields update — the
refresh is sequential, not atomic. -/
theorem C8_amended_state_refresh_sequential (cfg : MarketMakerConfig)
    (env : Env) (s : MMState) :
    (∀ e, env.getPosition = .error e →
      update_state cfg env s = (.error e, s, [])) ∧
    (∀ p e, env.getPosition = .ok p → env.getOrders = .error e →
      update_state cfg env s = (.error e, { s with position := some p }, [])) ∧
    (∀ p os, env.getPosition = .ok p → env.getOrders = .ok os →
      update_state cfg env s =
        (.ok (), { s with position := some p, active_orders := os }, [])) := by
  refine ⟨fun e he => ?_, fun p e hp he => ?_, fun p os hp ho => ?_⟩
  · norm_num [update_state, MM.bind_eq, MM.pure_eq, MM.bind, MM.pure,
      askEnv, modifyS, liftE, he]
  · norm_num [update_state, MM.bind_eq, MM.pure_eq, MM.bind, MM.pure,
      askEnv, modifyS, liftE, hp, he]
  · norm_num [update_state, MM.bind_eq, MM.pure_eq, MM.bind, MM.pure,
      askEnv, modifyS, liftE, hp, ho]

/-- C8 witness: the three refresh outcomes at concrete inputs. -/
theorem C8_witness :
    update_state cfg0 envPosFail sHeld = (.error .netError, sHeld, []) ∧
    update_state cfg0 envOrdersFail sFresh =
      (.error .netError, { sFresh with position := some 2 }, []) ∧
    update_state cfg0 env0 sHeld =
      (.ok (),
        { sHeld with position := some 0, active_orders := ([] : List Nat) },
        []) :=
  ⟨(C8_amended_state_refresh_sequential cfg0 envPosFail sHeld).1 .netError rfl,
   (C8_amended_state_refresh_sequential cfg0 envOrdersFail sFresh).2.1 2
     .netError rfl rfl,
   (C8_amended_state_refresh_sequential cfg0 env0 sHeld).2.2 0 [] rfl rfl⟩

/-- C9 counterexample: with a cached position, a failing live position query
makes `get_position_skew` raise — the error propagates instead of the skew
defaulting to zero. -/
theorem C9_counterexample :
    (get_position_skew cfg0 envPosFail sHeld).1 = .error .netError ∧
    (get_position_skew cfg0 envPosFail sHeld).1 ≠ .ok 0 := by
  have h : (get_position_skew cfg0 envPosFail sHeld).1 = .error .netError := by
    norm_num [get_position_skew, MM.bind_eq, MM.pure_eq, MM.bind, MM.pure,
      getS, askEnv, askCfg, liftE, envPosFail, env0, sHeld]
  exact ⟨h, by simp [h]⟩

/-- C9 amended: the skew defaults to zero only when the cached
`self.position` is `None`; when a position is cached and the live position
query fails, `get_position_skew` raises and the exception propagates to the
loop boundary instead of any zero-skew default. -/
theorem C9_amended_skew_error_propagates (cfg : MarketMakerConfig) (env : Env)
    (s : MMState) (e : PyErr) (v : ℚ) :
    (s.position = none → get_position_skew cfg env s = (.ok 0, s, [])) ∧
    (s.position = some v → env.getPosition = .error e →
      get_position_skew cfg env s = (.error e, s, [])) := by
  refine ⟨fun hnone => ?_, fun hsome he => ?_⟩
  · norm_num [get_position_skew, MM.bind_eq, MM.pure_eq, MM.bind, MM.pure,
      getS, askEnv, askCfg, liftE, hnone]
  · norm_num [get_position_skew, MM.bind_eq, MM.pure_eq, MM.bind, MM.pure,
      getS, askEnv, askCfg, liftE, hsome, he]

/-- C9 witness: zero skew on an empty cache, propagated error on a failing
live query. -/
theorem C9_witness :
    get_position_skew cfg0 env0 sFresh = (.ok 0, sFresh, []) ∧
    get_position_skew cfg0 envPosFail sModel =
      (.error .netError, sModel, []) :=
  ⟨(C9_amended_skew_error_propagates cfg0 env0 sFresh .netError 0).1 rfl,
   (C9_amended_skew_error_propagates cfg0 envPosFail sModel .netError 0).2
     rfl rfl⟩

/-- Every loop iteration ends with the boundary sleep, whatever the update
outcome. -/
theorem runStep_trace_getLast (cfg : MarketMakerConfig) (env : Env)
    (s : MMState) :
    (runStep cfg env s).2.getLast? = some (.sleepFor cfg.update_interval) := by
  rcases h : update cfg env s with ⟨r, s1, tr⟩
  cases r <;> simp [runStep, h]

/-- After any positive number of iterations, the trace of the loop ends with
the boundary sleep: no iteration's failure escapes the loop. -/
theorem runN_trace_getLast (cfg : MarketMakerConfig) :
    ∀ (n : Nat) (envs : Nat → Env) (s : MMState),
    (runN cfg envs (n+1) s).2.getLast? =
      some (.sleepFor cfg.update_interval) := by
  intro n
  induction n with
  | zero =>
    intro envs s
    simpa [runN] using runStep_trace_getLast cfg (envs 0) s
  | succ k ih =>
    intro envs s
    have hne : (runN cfg (fun i => envs (i+1)) (k+1)
        (runStep cfg (envs 0) s).1).2 ≠ [] := by
      intro hnil
      have := ih (fun i => envs (i+1)) (runStep cfg (envs 0) s).1
      rw [hnil] at this
      simp at this
    calc (runN cfg envs (k+2) s).2.getLast?
        = ((runStep cfg (envs 0) s).2 ++
            (runN cfg (fun i => envs (i+1)) (k+1)
              (runStep cfg (envs 0) s).1).2).getLast? := rfl
      _ = (runN cfg (fun i => envs (i+1)) (k+1)
            (runStep cfg (envs 0) s).1).2.getLast? :=
          List.getLast?_append_of_ne_nil _ hne
      _ = some (.sleepFor cfg.update_interval) :=
          ih (fun i => envs (i+1)) (runStep cfg (envs 0) s).1

/-- C10: the loop never terminates of its own accord — after every iteration,
failed or not, the last action is the boundary sleep and another iteration
follows; every exception `update()` raises is caught at the iteration
boundary, logged, and followed by the sleep; and each unrolling of the loop
continues with the next iteration from the post-step state. -/
theorem C10_loop_never_terminates (cfg : MarketMakerConfig)
    (envs : Nat → Env) (s : MMState) :
    (∀ n, (runN cfg envs (n+1) s).2.getLast? =
      some (.sleepFor cfg.update_interval)) ∧
    (∀ e s1 tr, update cfg (envs 0) s = (.error e, s1, tr) →
      runStep cfg (envs 0) s =
        (s1, tr ++ [.logError e, .sleepFor cfg.update_interval])) ∧
    (∀ n, runN cfg envs (n+1) s =
      ((runN cfg (fun i => envs (i+1)) n (runStep cfg (envs 0) s).1).1,
        (runStep cfg (envs 0) s).2 ++
          (runN cfg (fun i => envs (i+1)) n (runStep cfg (envs 0) s).1).2)) := by
  refine ⟨fun n => runN_trace_getLast cfg n envs s,
    fun e s1 tr h => by simp [runStep, h], fun n => rfl⟩

/-- C10 witness: the quiet tick's `AttributeError` is logged and followed by
the sleep, and the one-iteration trace ends with the sleep. -/
theorem C10_witness :
    runStep cfg0 env0 sQuiet =
      (sQuiet, [] ++ [.logError .attrError, .sleepFor cfg0.update_interval]) ∧
    (runN cfg0 (fun _ => env0) 1 sQuiet).2.getLast? =
      some (.sleepFor cfg0.update_interval) := by
  have h : update cfg0 env0 sQuiet = (.error .attrError, sQuiet, []) := by
    have h0 := update_eval_no_rebalance cfg0 env0 0 [] rfl rfl
      (by norm_num [cfg0]) sQuiet
    simpa [sQuiet] using h0
  exact ⟨(C10_loop_never_terminates cfg0 (fun _ => env0) sQuiet).2.1
      .attrError sQuiet [] h,
    (C10_loop_never_terminates cfg0 (fun _ => env0) sQuiet).1 0⟩

end PolyQH
